import Mathlib

/-!
Verification of the repository mycodesmells/pkg-errors-example.

The repository compares three error-propagation strategies for a three-function
call chain A → B → C where C always fails:
  * package `bare`   (src/bare/bare.go): propagates the error unchanged;
  * package `concat` (code block in src/posts/smart-golang-error-handling.md,
    lines 46-57): each frame builds a new flat error with `fmt.Errorf`;
  * package `wrap`   (src/wrap/wrap.go): each frame wraps with
    `errors.Wrap` from github.com/pkg/errors, which records an annotation, a
    pointer to the inner error, and a snapshot of the call stack.

We embed the error values as an inductive type whose constructors mirror the
dynamic Go types that occur in the program (`common.MyError`,
`*errors.errorString`, `*errors.withMessage`, `*errors.withStack`), and the
inspection routines of the example's main program (`err.Error()` rendering,
`%T` dynamic kind, `errors.Cause`, the `stackTracer` probe of `printStack`).
Stack capture is embedded by passing the current goroutine call stack as an
explicit list of frames: a function invoked with stack `st` (whose head is the
function's own frame) hands `callee-frame :: st` to its callee, and
`errors.Wrap` called inside it captures `st`, exactly as `runtime.Callers`
starting at `Wrap`'s caller does.
-/

/-- A stack-frame descriptor: a call-site identity (function identifier) and a
source location, as printed by `printStack` in the narrative
(src/posts/smart-golang-error-handling.md, lines 181-189).  Per spec §9 the
exact line numbers are non-normative; only the function identifiers and the
ordering carry meaning. -/
structure Frame where
  funcId : String
  srcLoc : String
deriving DecidableEq, Repr

/-- The error values that occur in this program, one constructor per dynamic Go
type observed by the `%T` inspection (blog post lines 130-137):
`common.MyError`, `*errors.errorString` (result of `fmt.Errorf` without `%w`),
and the two node types allocated by `errors.Wrap` of github.com/pkg/errors:
`*errors.withMessage` (msg + cause pointer) and `*errors.withStack`
(inner error + captured stack). -/
inductive GoError : Type where
  | myError (msg : String)
  | errorString (s : String)
  | withMessage (cause : GoError) (msg : String)
  | withStack (inner : GoError) (stack : List Frame)
deriving DecidableEq, Repr

/-- The dynamic kind of an error, as reported by `%T`. -/
inductive ErrKind : Type where
  | myErrorKind
  | errorStringKind
  | withMessageKind
  | withStackKind
deriving DecidableEq, Repr

/-- `%T` on an error value: its dynamic kind. -/
def kindOf : GoError → ErrKind
  | .myError _ => ErrKind.myErrorKind
  | .errorString _ => ErrKind.errorStringKind
  | .withMessage _ _ => ErrKind.withMessageKind
  | .withStack _ _ => ErrKind.withStackKind

/-- The `Error()` rendering of each error value.

  * `myError`: Modelled from the spec: the method `common.MyError.Error`
    lives in common/common.go, which is not under src/; per spec §3 the Domain
    Error's sole attribute is its message string and per spec §4.1/§8 it
    renders as that string (`"Error from CallC"`).  (The output transcripts in
    src/posts/smart-golang-error-handling.md additionally show an
    `"Errrrr: "` prefix produced by that missing method; the spec's exact
    strings omit it, and we follow the spec for the missing code.)
  * `errorString`: the stored formatted string (standard library).
  * `withMessage`: github.com/pkg/errors renders `msg + ": " + cause.Error()`.
  * `withStack`: github.com/pkg/errors delegates to the inner error. -/
def errorMessage : GoError → String
  | .myError msg => msg
  | .errorString s => s
  | .withMessage cause msg => msg ++ ": " ++ errorMessage cause
  | .withStack inner _ => errorMessage inner

/-- `errors.Cause` of github.com/pkg/errors: repeatedly follow the `Cause()`
capability while the current error exposes it (`withMessage` yields its cause
field, `withStack` its inner error) and return the first error that does not. -/
def errorsCause : GoError → GoError
  | .withMessage cause _ => errorsCause cause
  | .withStack inner _ => errorsCause inner
  | e => e

/-- The number of inner-error links `errors.Cause` follows before reaching an
error with no `Cause()` capability. -/
def causeDepth : GoError → Nat
  | .withMessage cause _ => causeDepth cause + 1
  | .withStack inner _ => causeDepth inner + 1
  | _ => 0

/-- The `stackTracer` probe of `printStack` (blog post lines 181-189): a type
assertion on the given error value itself.  Only `*errors.withStack` implements
`StackTrace()`; every other kind makes the probe fail ("No stack trace..."),
rendered here as `none`. -/
def stackTrace : GoError → Option (List Frame)
  | .withStack _ st => some st
  | _ => none

/-- `errors.Wrap(err, msg)` of github.com/pkg/errors: allocates a
`withMessage` node holding the annotation and the wrapped error, then a
`withStack` node holding that node together with the stack captured at the
caller's call site.  (Its `err == nil` short-circuit is unreachable here: every
chain in this repository always fails.) -/
def errorsWrap (err : GoError) (msg : String) (callers : List Frame) : GoError :=
  GoError.withStack (GoError.withMessage err msg) callers

/-- The frame of `wrap.CallA` (function identifier from the blog transcript,
line 206; line number non-normative per spec §9). -/
def callAFrame : Frame :=
  { funcId := "github.com/mycodesmells/pkg-errors-example/wrap.CallA"
    srcLoc := "wrap/wrap.go:9" }

/-- The frame of `wrap.CallB` (blog transcript, line 216). -/
def callBFrame : Frame :=
  { funcId := "github.com/mycodesmells/pkg-errors-example/wrap.CallB"
    srcLoc := "wrap/wrap.go:13" }

/-- The frame of `wrap.CallC`. -/
def callCFrame : Frame :=
  { funcId := "github.com/mycodesmells/pkg-errors-example/wrap.CallC"
    srcLoc := "wrap/wrap.go:17" }

/-- The frame of `main.main` (blog transcript, line 220). -/
def mainFrame : Frame :=
  { funcId := "main.main", srcLoc := "main.go:19" }

/-- The frame of `runtime.main`. -/
def runtimeMainFrame : Frame :=
  { funcId := "runtime.main", srcLoc := "proc.go:183" }

/-- The frame of `runtime.goexit`. -/
def goexitFrame : Frame :=
  { funcId := "runtime.goexit", srcLoc := "asm_amd64.s:2086" }

/-- The call stack on which `main.main` invokes each `CallA`. -/
def mainCallers : List Frame := [mainFrame, runtimeMainFrame, goexitFrame]

namespace bare

/-- src/bare/bare.go line 13-15: `return common.MyError{Msg: "Error from CallC"}`. -/
def CallC : GoError := GoError.myError "Error from CallC"

/-- src/bare/bare.go line 9-11: `return CallC()`. -/
def CallB : GoError := CallC

/-- src/bare/bare.go line 5-7: `return CallB()`. -/
def CallA : GoError := CallB

end bare

namespace concat

/-- Code block in src/posts/smart-golang-error-handling.md lines 55-57:
`return common.MyError{Msg: "Error from CallC"}`. -/
def CallC : GoError := GoError.myError "Error from CallC"

/-- Blog lines 51-53: `return fmt.Errorf("Error from CallB: %v", CallC())`.
`fmt.Errorf` without `%w` formats the operands (`%v` on an error renders its
`Error()` text) and returns a `*errors.errorString`. -/
def CallB : GoError := GoError.errorString ("Error from CallB: " ++ errorMessage CallC)

/-- Blog lines 47-49: `return fmt.Errorf("Error from CallA: %v", CallB())`. -/
def CallA : GoError := GoError.errorString ("Error from CallA: " ++ errorMessage CallB)

end concat

namespace wrap

/-- src/wrap/wrap.go lines 16-18: `return common.MyError{Msg: "Error from CallC"}`.
The stack argument is the goroutine stack at invocation; `CallC` ignores it. -/
def CallC (_st : List Frame) : GoError := GoError.myError "Error from CallC"

/-- src/wrap/wrap.go lines 12-14: `return errors.Wrap(CallC(), "Error from CallB")`.
`st` is `CallB`'s own stack (head: `CallB`'s frame); `CallC` runs on
`callCFrame :: st` and the `Wrap` call site captures `st`. -/
def CallB (st : List Frame) : GoError :=
  errorsWrap (CallC (callCFrame :: st)) "Error from CallB" st

/-- src/wrap/wrap.go lines 8-10: `return errors.Wrap(CallB(), "Error from CallA")`. -/
def CallA (st : List Frame) : GoError :=
  errorsWrap (CallB (callBFrame :: st)) "Error from CallA" st

end wrap

/-- C1: For Chain-Wrapped, the root cause of `wrap.CallA()`'s error — obtained
by repeatedly following inner-error references until an error with no inner
reference is reached (`errorsCause`) — has kind `common.MyError` and message
exactly "Error from CallC", whatever stack `CallA` runs on. -/
theorem wrap_root_cause_kind_and_message (st : List Frame) :
    kindOf (errorsCause (wrap.CallA st)) = ErrKind.myErrorKind ∧
    errorMessage (errorsCause (wrap.CallA st)) = "Error from CallC" :=
  ⟨rfl, rfl⟩

/-- C2: Both `concat.CallA()` and `wrap.CallA()` render exactly
"Error from CallA: Error from CallB: Error from CallC": every annotation plus
the root message, joined by the fixed delimiter ": ". -/
theorem rendered_message_annotated_and_wrapped (st : List Frame) :
    errorMessage concat.CallA = "Error from CallA: Error from CallB: Error from CallC" ∧
    errorMessage (wrap.CallA st) = "Error from CallA: Error from CallB: Error from CallC" :=
  ⟨rfl, rfl⟩

/-- C3: For Chain-Bare, the error observed by the caller of `bare.CallA()` is
the very value produced by `bare.CallC()`: `CallA` and `CallB` each return
their callee's result with no transformation. -/
theorem bare_error_identical_to_callC :
    bare.CallA = bare.CallC ∧ bare.CallB = bare.CallC ∧
    bare.CallA = GoError.myError "Error from CallC" :=
  ⟨rfl, rfl, rfl⟩

/-- C4: For Chain-Bare, the rendered message of `bare.CallA()` is exactly
"Error from CallC" and its dynamic kind is `common.MyError`. -/
theorem bare_message_and_kind :
    errorMessage bare.CallA = "Error from CallC" ∧
    kindOf bare.CallA = ErrKind.myErrorKind :=
  ⟨rfl, rfl⟩

/-- C5: For Chain-Annotated, `errorsCause` returns `concat.CallA()`'s own
value unchanged (a `*errors.errorString` exposes no inner-error capability, so
no unwrapping occurs), and its kind is not `common.MyError`: the Domain Error
survives only as embedded text. -/
theorem concat_root_cause_is_itself :
    errorsCause concat.CallA = concat.CallA ∧
    kindOf concat.CallA ≠ ErrKind.myErrorKind :=
  ⟨rfl, by decide⟩

/-- C6: `stackTrace` on `wrap.CallA()`'s result (invoked on any stack headed by
`CallA`'s own frame) yields a non-empty frame sequence, innermost first, whose
first entry's function identifier is `wrap.CallA`'s; on the results of
`bare.CallA()` and `concat.CallA()` the `stackTracer` probe fails ("no stack
trace available"). -/
theorem stack_trace_queries (rest : List Frame) :
    (∃ frames, stackTrace (wrap.CallA (callAFrame :: rest)) = some frames ∧
       frames ≠ [] ∧ frames.head? = some callAFrame) ∧
    callAFrame.funcId = "github.com/mycodesmells/pkg-errors-example/wrap.CallA" ∧
    stackTrace bare.CallA = none ∧
    stackTrace concat.CallA = none :=
  ⟨⟨callAFrame :: rest, rfl, List.cons_ne_nil _ _, rfl⟩, rfl, rfl, rfl⟩

/-- C7 counterexample: on the concrete invocation of `wrap.CallA` from `main`,
`errors.Cause` traverses 4 inner-error links before reaching the Domain Error,
not 2: each of the two `errors.Wrap` calls contributes a `withStack` node and a
`withMessage` node, i.e. two links per wrapping frame. -/
theorem cause_links_not_two :
    causeDepth (wrap.CallA (callAFrame :: mainCallers)) = 4 ∧
    causeDepth (wrap.CallA (callAFrame :: mainCallers)) ≠ 2 := by
  constructor
  · rfl
  · decide

/-- C7 amended: the number of inner-error links traversed by `errorsCause` on a
Chain-Wrapped result is exactly twice the number of wrapping call frames —
4 for the three-function chain, since each of the 2 `errors.Wrap` calls links
in two nodes (`withStack` over `withMessage`) — and following them terminates
at the Domain Error. -/
theorem cause_links_twice_wrapping_frames (st : List Frame) :
    causeDepth (wrap.CallA st) = 2 * 2 ∧
    errorsCause (wrap.CallA st) = GoError.myError "Error from CallC" :=
  ⟨rfl, rfl⟩

/-- C8: the rendered message of `wrap.CallA()`'s error equals that of
`concat.CallA()`'s, whatever stack the wrapped chain runs on: the two
strategies are observationally equivalent at the level of message text. -/
theorem wrapped_and_annotated_messages_agree (st : List Frame) :
    errorMessage (wrap.CallA st) = errorMessage concat.CallA :=
  rfl

/-- C9: two successive invocations of each `CallA` yield errors with identical
`Message` and `Kind` results.  `bare.CallA` and `concat.CallA` are pure
constants, so any two invocations denote the same value; `wrap.CallA`'s result
depends on the ambient call stack, and its message and kind are nevertheless
identical across any two invocation stacks. -/
theorem repeated_invocations_agree (st1 st2 : List Frame) :
    errorMessage (wrap.CallA st1) = errorMessage (wrap.CallA st2) ∧
    kindOf (wrap.CallA st1) = kindOf (wrap.CallA st2) ∧
    errorMessage bare.CallA = errorMessage bare.CallA ∧
    kindOf bare.CallA = kindOf bare.CallA ∧
    errorMessage concat.CallA = errorMessage concat.CallA ∧
    kindOf concat.CallA = kindOf concat.CallA :=
  ⟨rfl, rfl, rfl, rfl, rfl, rfl⟩

/-- C10: each `errors.Wrap` call produces two wrapper nodes, not one:
`wrap.CallA()`'s result is a `*errors.withStack` node carrying only the stack
snapshot, whose inner error is a distinct `*errors.withMessage` node carrying
only the annotation "Error from CallA" and the reference to `CallB`'s error;
so the `%T` kind of the result is `withStack`, and one wrapping frame's
annotation and stack snapshot live in two linked nodes. -/
theorem wrap_produces_two_nodes (st : List Frame) :
    kindOf (wrap.CallA st) = ErrKind.withStackKind ∧
    wrap.CallA st =
      GoError.withStack
        (GoError.withMessage (wrap.CallB (callBFrame :: st)) "Error from CallA") st ∧
    kindOf (GoError.withMessage (wrap.CallB (callBFrame :: st)) "Error from CallA") =
      ErrKind.withMessageKind ∧
    stackTrace (wrap.CallA st) = some st :=
  ⟨rfl, rfl, rfl, rfl⟩
